import Mathlib

/-!
Verification of the transaction risk analytics core
(`src/transaction_risk_model.py` of the transaction-risk-api repository).

The Python core is a pure pipeline over an in-memory list of transactions.
We embed it shallowly in Lean:

* Python floats are modelled as exact rationals (`ℚ`).  The pipeline's
  arithmetic is `+ - * / min max round`, all of which are exact here; the
  one genuinely inexact operation is `numpy.std`'s square root, modelled
  below by `ratSqrt` (exact whenever the variance is a perfect rational
  square — which covers every concrete input evaluated in this file; no
  theorem below depends on the value of a square root beyond it being
  non-negative and zero on zero).
* `round(x, n)` is modelled as round-half-up at `n` decimals (`round3`,
  `round1`); Python's float `round` is round-half-even, the two agree
  away from exact ties.
* pandas dataframe group-bys are modelled as list filters and sums over
  the per-month / per-category keys in first-occurrence order
  (`List.dedup`); pandas returns group keys sorted, but every quantity
  the theorems below observe (sums, memberships, individual map entries,
  emptiness) is invariant under the order of the key list, and mapping
  outputs are compared as mappings, not as ordered sequences.
* `df.sort_values('date')` (Normalizer) is omitted for the same reason:
  every downstream aggregate is permutation-invariant.
-/

namespace TransactionRisk

/-- The epsilon guard `1e-6` used by every volatility / savings-rate
denominator in the source. -/
def eps : ℚ := 1 / 1000000

/-- Python `round(x, 3)` (modulo tie-breaking, see the file header). -/
def round3 (q : ℚ) : ℚ := (round (q * 1000) : ℤ) / 1000

/-- Python `round(x, 1)` (modulo tie-breaking, see the file header). -/
def round1 (q : ℚ) : ℚ := (round (q * 10) : ℤ) / 10

/-- `numpy.mean` of a list (population mean).  `np.mean([])` is NaN in
numpy; the Lean junk value `0/0 = 0` is never reached on the paths the
code takes (see `analyzeMeanArgs` below). -/
def npMean (l : List ℚ) : ℚ := l.sum / l.length

/-- Population variance, the square of `numpy.std`. -/
def popVar (l : List ℚ) : ℚ := ((l.map (fun x => (x - npMean l) ^ 2)).sum) / l.length

/-- Rational square root: exact whenever the argument is the square of a
rational (in particular `ratSqrt 0 = 0`), a floor-style approximation
otherwise (`numpy` itself computes an inexact float square root).  Always
non-negative. -/
def ratSqrt (q : ℚ) : ℚ := (Nat.sqrt q.num.toNat : ℚ) / (Nat.sqrt q.den : ℚ)

/-- `numpy.std` (population standard deviation). -/
def npStd (l : List ℚ) : ℚ := ratSqrt (popVar l)

/-- A calendar date; the time-of-day part of the Python `datetime` plays
no role in the analytics core and is omitted. -/
structure DateT where
  year : Int
  month : Nat
  day : Nat
deriving DecidableEq, Repr

/-- Days since the civil epoch 1970-01-01 (Hinnant's `days_from_civil`
algorithm, with floor division made explicit). -/
def DateT.daysFromCivil (t : DateT) : Int :=
  let y : Int := if t.month ≤ 2 then t.year - 1 else t.year
  let era : Int := Int.fdiv y 400
  let yoe : Int := y - era * 400
  let mp : Nat := if 2 < t.month then t.month - 3 else t.month + 9
  let doy : Int := (((153 * mp + 2) / 5 : Nat) : Int) + (t.day : Int) - 1
  let doe : Int := yoe * 365 + Int.fdiv yoe 4 - Int.fdiv yoe 100 + doy
  era * 146097 + doe - 719468

/-- Python `datetime.weekday()`: Monday = 0 … Sunday = 6.
1970-01-01 (epoch day 0) was a Thursday, hence the offset 3 (`%` on `ℤ`
is the non-negative Euclidean remainder). -/
def DateT.weekday (t : DateT) : Nat := ((t.daysFromCivil + 3) % 7).toNat

/-- Decimal digits of a natural number, most significant first
(fuel-structured so that it evaluates definitionally; `fuel ≥ n`
suffices). -/
def natDigitsAux : Nat → Nat → List Char
  | 0, _ => []
  | fuel + 1, n =>
    if n = 0 then []
    else natDigitsAux fuel (n / 10) ++ [Char.ofNat (48 + n % 10)]

/-- Decimal rendering of a natural number (what `str` / `strftime`
produce for a year or month number). -/
def natToStr (n : Nat) : String :=
  if n = 0 then "0" else String.mk (natDigitsAux (n + 1) n)

/-- Decimal rendering of an integer. -/
def intToStr (i : Int) : String :=
  if i < 0 then "-" ++ natToStr i.natAbs else natToStr i.toNat

/-- Zero-pad a month number to two digits, as `strftime('%m')` does. -/
def pad2 (n : Nat) : String := if n < 10 then "0" ++ natToStr n else natToStr n

/-- `date.strftime('%Y-%m')`, the month bucket key (years are rendered
without padding; all dates of interest have four-digit years). -/
def DateT.monthKey (t : DateT) : String := intToStr t.year ++ "-" ++ pad2 t.month

/-- `models/schemas.py` `TransactionType`. -/
inductive TransactionType
  | credit
  | debit
deriving DecidableEq, Repr

/-- `models/schemas.py` `RiskCategory` (values "low"/"medium"/"high"). -/
inductive RiskCategory
  | low
  | medium
  | high
deriving DecidableEq, Repr

/-- `models/schemas.py` `SpendingStability` (values "Low"/"Medium"/"High"). -/
inductive SpendingStability
  | low
  | medium
  | high
deriving DecidableEq, Repr

/-- `models/schemas.py` `Transaction`.  The `id`/`user_id` fields play no
role in the analytics core and are omitted. -/
structure Transaction where
  date : DateT
  description : String
  amount : ℚ
  type : TransactionType
  category : String
  upi_app : Option String
deriving DecidableEq, Repr

/-- `self.weekend_days = [5, 6]`. -/
def weekend_days : List Nat := [5, 6]

/-- `self.high_risk_categories`. -/
def high_risk_categories : List String :=
  ["gambling", "casino", "betting", "alcohol", "tobacco", "luxury",
   "entertainment", "gaming", "nightlife", "party"]

/-- `self.essential_categories`. -/
def essential_categories : List String :=
  ["groceries", "utilities", "rent", "mortgage", "insurance", "healthcare",
   "medicine", "fuel", "transport", "education", "bills"]

/-- ASCII lower-casing of one character (Python `str.lower()` restricted
to ASCII, which covers every category vocabulary entry). -/
def charLower (c : Char) : Char :=
  if 65 ≤ c.toNat ∧ c.toNat ≤ 90 then Char.ofNat (c.toNat + 32) else c

/-- `transaction.category.lower()`: character-wise ASCII lower-casing. -/
def strLower (s : String) : String := String.mk (s.data.map charLower)

/-- One row of the dataframe built by `_transactions_to_dataframe`. -/
structure Row where
  date : DateT
  amount : ℚ
  type : TransactionType
  category : String
  weekday : Nat
  month : String
  is_weekend : Bool
deriving DecidableEq, Repr

/-- The per-transaction part of `_transactions_to_dataframe`: derived
fields `weekday`, `month`, `is_weekend`, lower-cased `category`. -/
def toRow (t : Transaction) : Row :=
  { date := t.date
    amount := t.amount
    type := t.type
    category := strLower t.category
    weekday := t.date.weekday
    month := t.date.monthKey
    is_weekend := weekend_days.contains t.date.weekday }

/-- `_transactions_to_dataframe` (the date sort is omitted, see header). -/
def toRows (ts : List Transaction) : List Row := ts.map toRow

/-! ## Financial Summarizer (`_calculate_financial_summary`) -/

/-- The distinct months present in the data — the index of
`df.groupby(['month', 'type'])...unstack(...)` (pandas returns these keys
sorted; order is irrelevant to every theorem below, see header). -/
def months (rs : List Row) : List String := (rs.map Row.month).dedup

/-- `monthly_data.loc[month, 'debit']` with the 0 fallback when the
`debit` column is absent: the month's total debit amount. -/
def debitSumIn (rs : List Row) (m : String) : ℚ :=
  ((rs.filter (fun r => r.month = m ∧ r.type = TransactionType.debit)).map Row.amount).sum

/-- `monthly_data.loc[month, 'credit']` with the 0 fallback when the
`credit` column is absent: the month's total credit amount. -/
def creditSumIn (rs : List Row) (m : String) : ℚ :=
  ((rs.filter (fun r => r.month = m ∧ r.type = TransactionType.credit)).map Row.amount).sum

/-- `income_values`: the per-month credit totals. -/
def incomeValues (rs : List Row) : List ℚ := (months rs).map (creditSumIn rs)

/-- `spending_values` (the values of `monthly_spendings`). -/
def spendingValues (rs : List Row) : List ℚ := (months rs).map (debitSumIn rs)

/-- `income_volatility` before its `round(_, 3)`. -/
def incomeVolatilityRaw (rs : List Row) : ℚ :=
  npStd (incomeValues rs) / (npMean (incomeValues rs) + eps)

/-- `spending_volatility` before its `round(_, 3)`. -/
def spendingVolatilityRaw (rs : List Row) : ℚ :=
  npStd (spendingValues rs) / (npMean (spendingValues rs) + eps)

/-- `consistency_score` before its `round(_, 3)`; note the source feeds
the *unrounded* volatilities into this formula. -/
def consistencyRaw (rs : List Row) : ℚ :=
  max 0 (1 - (incomeVolatilityRaw rs + spendingVolatilityRaw rs) / 2)

/-- `models/schemas.py` `FinancialSummary`. -/
structure FinancialSummary where
  monthly_spendings : List (String × ℚ)
  monthly_savings : List (String × ℚ)
  total_savings : ℚ
  income_volatility : ℚ
  spending_volatility : ℚ
  consistency_score : ℚ
  transaction_frequency : Nat
deriving DecidableEq, Repr

/-- `_calculate_financial_summary`. -/
def calculate_financial_summary (rs : List Row) : FinancialSummary :=
  { monthly_spendings := (months rs).map (fun m => (m, debitSumIn rs m))
    monthly_savings := (months rs).map (fun m => (m, max 0 (creditSumIn rs m - debitSumIn rs m)))
    total_savings := ((months rs).map (fun m => max 0 (creditSumIn rs m - debitSumIn rs m))).sum
    income_volatility := round3 (incomeVolatilityRaw rs)
    spending_volatility := round3 (spendingVolatilityRaw rs)
    consistency_score := round3 (consistencyRaw rs)
    transaction_frequency := rs.length }

/-! ## Behavioral Analyzer (`_calculate_behavioral_analysis`,
`_determine_spending_stability`) -/

/-- The debit rows, `df[df['type'] == 'debit']`. -/
def debitRows (rs : List Row) : List Row :=
  rs.filter (fun r => r.type = TransactionType.debit)

/-- The distinct (already lower-cased) categories of the debit rows — the
index of `spending_by_category`. -/
def categories (rs : List Row) : List String :=
  ((debitRows rs).map Row.category).dedup

/-- One entry of `spending_by_category`: the debit total of a category. -/
def categorySum (rs : List Row) (c : String) : ℚ :=
  (((debitRows rs).filter (fun r => r.category = c)).map Row.amount).sum

/-- `total_spending = spending_by_category.sum()`. -/
def totalSpending (rs : List Row) : ℚ := ((categories rs).map (categorySum rs)).sum

/-- `spending_pattern_distribution` (empty unless `total_spending > 0`). -/
def spendingPatternDistribution (rs : List Row) : List (String × ℚ) :=
  if 0 < totalSpending rs then
    (categories rs).map (fun c => (c, round3 (categorySum rs c / totalSpending rs)))
  else []

/-- One value of `income_spending_analysis`: the month's income, spending
and (signed, unclamped) savings rate. -/
structure MonthlyAnalysis where
  income : ℚ
  spending : ℚ
  savings_rate : ℚ
deriving DecidableEq, Repr

/-- The `income_spending_analysis[month]` entry. -/
def monthAnalysis (rs : List Row) (m : String) : MonthlyAnalysis :=
  { income := creditSumIn rs m
    spending := debitSumIn rs m
    savings_rate := (creditSumIn rs m - debitSumIn rs m) / (creditSumIn rs m + eps) }

/-- `income_spending_analysis`. -/
def incomeSpendingAnalysis (rs : List Row) : List (String × MonthlyAnalysis) :=
  (months rs).map (fun m => (m, monthAnalysis rs m))

/-- `total_debit_amount = debit_transactions['amount'].sum()`. -/
def total_debit_amount (rs : List Row) : ℚ := ((debitRows rs).map Row.amount).sum

/-- `essential_spending`: debit total over the essential categories. -/
def essentialSpendingSum (rs : List Row) : ℚ :=
  (((debitRows rs).filter (fun r => essential_categories.contains r.category)).map Row.amount).sum

/-- `high_risk_spending`: debit total over the high-risk categories. -/
def highRiskSpendingSum (rs : List Row) : ℚ :=
  (((debitRows rs).filter (fun r => high_risk_categories.contains r.category)).map Row.amount).sum

/-- `weekend_spending`: debit total over the weekend rows. -/
def weekendSpendingSum (rs : List Row) : ℚ :=
  (((debitRows rs).filter (fun r => r.is_weekend)).map Row.amount).sum

/-- `essential_ratio` in the source: guarded by `total_debit_amount > 0`,
else 0; before its `round(_, 3)`. -/
def essentialRatioRaw (rs : List Row) : ℚ :=
  if 0 < total_debit_amount rs then essentialSpendingSum rs / total_debit_amount rs else 0

/-- `high_risk_ratio` in the source (same guard), before `round(_, 3)`. -/
def highRiskRatioRaw (rs : List Row) : ℚ :=
  if 0 < total_debit_amount rs then highRiskSpendingSum rs / total_debit_amount rs else 0

/-- `weekend_ratio` in the source (same guard), before `round(_, 3)`. -/
def weekendRatioRaw (rs : List Row) : ℚ :=
  if 0 < total_debit_amount rs then weekendSpendingSum rs / total_debit_amount rs else 0

/-- `models/schemas.py` `BehavioralPatterns`.  The source field names end
in `ratio`; a trailing underscore is appended here. -/
structure BehavioralPatterns where
  essential_spending_ratio_ : ℚ
  high_risk_spending_ratio_ : ℚ
  weekend_spending_ratio_ : ℚ
deriving DecidableEq, Repr

/-- The months having at least one debit row — the index of the
`monthly_spending` series in `_determine_spending_stability`. -/
def debitMonths (rs : List Row) : List String :=
  ((debitRows rs).map Row.month).dedup

/-- The values of that series: per-month debit totals, for the months
with debit activity. -/
def monthlyDebitTotals (rs : List Row) : List ℚ :=
  (debitMonths rs).map (debitSumIn rs)

/-- `_determine_spending_stability`. -/
def determine_spending_stability (rs : List Row) : SpendingStability :=
  if (debitMonths rs).length < 2 then SpendingStability.medium
  else
    let cv := npStd (monthlyDebitTotals rs) / (npMean (monthlyDebitTotals rs) + eps)
    if cv < 2/10 then SpendingStability.high
    else if cv < 4/10 then SpendingStability.medium
    else SpendingStability.low

/-- `models/schemas.py` `BehavioralAnalysis`. -/
structure BehavioralAnalysis where
  spending_pattern_distribution : List (String × ℚ)
  income_and_spending_analysis : List (String × MonthlyAnalysis)
  spending_stability : SpendingStability
  behavioral_patterns : BehavioralPatterns
deriving DecidableEq, Repr

/-- `_calculate_behavioral_analysis`. -/
def calculate_behavioral_analysis (rs : List Row) : BehavioralAnalysis :=
  { spending_pattern_distribution := spendingPatternDistribution rs
    income_and_spending_analysis := incomeSpendingAnalysis rs
    spending_stability := determine_spending_stability rs
    behavioral_patterns :=
      { essential_spending_ratio_ := round3 (essentialRatioRaw rs)
        high_risk_spending_ratio_ := round3 (highRiskRatioRaw rs)
        weekend_spending_ratio_ := round3 (weekendRatioRaw rs) } }

/-! ## Risk Assessor (`_calculate_risk_assessment`) -/

/-- `models/schemas.py` `RiskAssessmentDetails`. -/
structure RiskAssessmentDetails where
  risk_essential_spending : ℚ
  high_risk_spending : ℚ
  weekend_spending : ℚ
  loan_eligibility_factors : List String
deriving DecidableEq, Repr

/-- `monthly_incomes`: the income entries of
`behavioral_analysis.income_and_spending_analysis.values()`. -/
def monthlyIncomes (ba : BehavioralAnalysis) : List ℚ :=
  ba.income_and_spending_analysis.map (fun p => p.2.income)

/-- The "Stable income" condition: more than one month of income data and
coefficient of variation below 0.3 (the Python `and` short-circuits, so
the statistics are only taken on a list of length ≥ 2). -/
def stableIncomeCond (ba : BehavioralAnalysis) : Prop :=
  1 < (monthlyIncomes ba).length ∧
    npStd (monthlyIncomes ba) / (npMean (monthlyIncomes ba) + eps) < 3/10

instance (ba : BehavioralAnalysis) : Decidable (stableIncomeCond ba) :=
  inferInstanceAs (Decidable (And _ _))

/-- The `eligibility_factors` list built in `_calculate_risk_assessment`:
four independent conditional appends, then the fallback entry if none
triggered. -/
def eligibilityFactors (ba : BehavioralAnalysis) : List String :=
  let p := ba.behavioral_patterns
  let l :=
    (if 1/2 < p.essential_spending_ratio_ then ["High essential spending ratio"] else [])
    ++ (if p.high_risk_spending_ratio_ < 15/100 then ["Low discretionary spending"] else [])
    ++ (if ba.spending_stability = SpendingStability.high ∨
           ba.spending_stability = SpendingStability.medium
        then ["Stable spending pattern"] else [])
    ++ (if stableIncomeCond ba then ["Stable income"] else [])
  if l = [] then ["Standard risk profile"] else l

/-- `_calculate_risk_assessment` (its `df` parameter is unused in the
source and omitted here). -/
def calculate_risk_assessment (ba : BehavioralAnalysis) : RiskAssessmentDetails :=
  let p := ba.behavioral_patterns
  { risk_essential_spending := round1 (max 0 (50 - p.essential_spending_ratio_ * 50))
    high_risk_spending := round1 (p.high_risk_spending_ratio_ * 100)
    weekend_spending := round1 (min (p.weekend_spending_ratio_ * 100) 50)
    loan_eligibility_factors := eligibilityFactors ba }

/-! ## Scorer / Decision (`_calculate_overall_risk_score`,
`_determine_risk_category`, `_determine_loan_eligibility`) -/

/-- `avg_savings_rate = np.mean([analysis['savings_rate'] ...])`, as
computed both in the scorer and in the eligibility cascade. -/
def avgSavingsRate (ba : BehavioralAnalysis) : ℚ :=
  npMean (ba.income_and_spending_analysis.map (fun p => p.2.savings_rate))

/-- `_calculate_overall_risk_score` (its `risk_assessment` parameter is
unused in the source and omitted here).  Note it reads the *rounded*
volatility and consistency fields from the financial summary. -/
def calculate_overall_risk_score (fs : FinancialSummary) (ba : BehavioralAnalysis) : ℚ :=
  let p := ba.behavioral_patterns
  let volatility_score := (fs.income_volatility + fs.spending_volatility) * 50
  let consistency_bonus := (1 - fs.consistency_score) * 20
  let behavioral_risk :=
    p.high_risk_spending_ratio_ * 30 + max 0 (p.weekend_spending_ratio_ - 2/10) * 20
  let essential_bonus := max 0 ((6/10 - p.essential_spending_ratio_) * 15)
  let savings_risk := max 0 ((1/10 - avgSavingsRate ba) * 25)
  let freq_risk : ℚ :=
    if fs.transaction_frequency < 20 then 10
    else if 300 < fs.transaction_frequency then 5
    else 0
  min 100 (max 0 (volatility_score + consistency_bonus + behavioral_risk +
    essential_bonus + savings_risk + freq_risk))

/-- `_determine_risk_category`. -/
def determine_risk_category (risk_score : ℚ) : RiskCategory :=
  if risk_score < 40 then RiskCategory.low
  else if risk_score < 70 then RiskCategory.medium
  else RiskCategory.high

/-- `_determine_loan_eligibility`: the five-rule short-circuit cascade,
then the strengths-based acceptance reason. -/
def determine_loan_eligibility (risk_score : ℚ) (fs : FinancialSummary)
    (ba : BehavioralAnalysis) : Bool × String :=
  let p := ba.behavioral_patterns
  if 75 < risk_score then
    (false, "High risk profile with significant financial volatility")
  else if p.essential_spending_ratio_ < 3/10 then
    (false, "Insufficient essential spending pattern indicating unstable lifestyle")
  else if 25/100 < p.high_risk_spending_ratio_ then
    (false, "Excessive high-risk spending indicating poor financial discipline")
  else if avgSavingsRate ba < -(1/10) then
    (false, "Negative savings rate indicating financial stress")
  else if fs.consistency_score < 3/10 then
    (false, "Highly inconsistent financial behavior")
  else
    let reasons :=
      (if 1/2 < p.essential_spending_ratio_ then ["stable essential spending"] else [])
      ++ (if p.high_risk_spending_ratio_ < 15/100 then ["controlled discretionary spending"] else [])
      ++ (if 7/10 < fs.consistency_score then ["consistent financial behavior"] else [])
      ++ (if 5/100 < avgSavingsRate ba then ["positive savings rate"] else [])
    let reasons := if reasons = [] then ["acceptable risk profile"] else reasons
    (true, "Eligible based on " ++ String.intercalate ", " reasons)

/-! ## Top level (`analyze_transactions`, `_generate_empty_result`) -/

/-- `models/schemas.py` `MLAnalysisResult`.  `created_at` is the
`datetime.utcnow()` clock read, modelled as an explicit parameter `now`
of the entry point. -/
structure MLAnalysisResult where
  overall_risk_score : ℚ
  risk_category : RiskCategory
  loan_eligibility : Bool
  eligibility_reason : String
  financial_summary : FinancialSummary
  behavioral_analysis : BehavioralAnalysis
  risk_assessment_details : RiskAssessmentDetails
  created_at : DateT
deriving DecidableEq, Repr

/-- `_generate_empty_result`: the fixed sentinel for empty input. -/
def generate_empty_result (now : DateT) : MLAnalysisResult :=
  { overall_risk_score := 50
    risk_category := RiskCategory.medium
    loan_eligibility := false
    eligibility_reason := "Insufficient transaction history for assessment"
    financial_summary :=
      { monthly_spendings := []
        monthly_savings := []
        total_savings := 0
        income_volatility := 0
        spending_volatility := 0
        consistency_score := 0
        transaction_frequency := 0 }
    behavioral_analysis :=
      { spending_pattern_distribution := []
        income_and_spending_analysis := []
        spending_stability := SpendingStability.medium
        behavioral_patterns :=
          { essential_spending_ratio_ := 0
            high_risk_spending_ratio_ := 0
            weekend_spending_ratio_ := 0 } }
    risk_assessment_details :=
      { risk_essential_spending := 50
        high_risk_spending := 0
        weekend_spending := 0
        loan_eligibility_factors := ["Insufficient data"] }
    created_at := now }

/-- `analyze_transactions`, the main entry point.  The unrounded risk
score feeds the category and eligibility decisions; the stored
`overall_risk_score` is `round(score, 1)`. -/
def analyze_transactions (now : DateT) (ts : List Transaction) : MLAnalysisResult :=
  if ts = [] then generate_empty_result now
  else
    let rs := toRows ts
    let fs := calculate_financial_summary rs
    let ba := calculate_behavioral_analysis rs
    let ra := calculate_risk_assessment ba
    let score := calculate_overall_risk_score fs ba
    let le := determine_loan_eligibility score fs ba
    { overall_risk_score := round1 score
      risk_category := determine_risk_category score
      loan_eligibility := le.1
      eligibility_reason := le.2
      financial_summary := fs
      behavioral_analysis := ba
      risk_assessment_details := ra
      created_at := now }

/-- The overall risk score as a function of the raw transaction list:
exactly the value `analyze_transactions` computes and passes to the
category / eligibility deciders on the non-empty path. -/
def pipelineScore (ts : List Transaction) : ℚ :=
  calculate_overall_risk_score (calculate_financial_summary (toRows ts))
    (calculate_behavioral_analysis (toRows ts))

/-- `savings_rate` values across the months, the argument of the
`avg_savings_rate` mean. -/
def savingsRates (rs : List Row) : List ℚ :=
  (incomeSpendingAnalysis rs).map (fun p => p.2.savings_rate)

/-- Every denominator `analyze_transactions` divides by on input `ts`, in
pipeline order: the two volatility denominators, the per-month
savings-rate denominators, the (guarded) category-distribution and
behavioral-ratio denominators, the spending-stability and stable-income
coefficient-of-variation denominators.  (The fixed `/ 1000` and `/ 10` of
the rounding helpers and the `/ len` inside `np.mean` / `np.std` are
constants resp. covered by `analyzeMeanArgs`.) -/
def analyzeDenominators (ts : List Transaction) : List ℚ :=
  if ts = [] then [] else
  [npMean (incomeValues (toRows ts)) + eps, npMean (spendingValues (toRows ts)) + eps]
  ++ (months (toRows ts)).map (fun m => creditSumIn (toRows ts) m + eps)
  ++ (if 0 < totalSpending (toRows ts) then [totalSpending (toRows ts)] else [])
  ++ (if 0 < total_debit_amount (toRows ts) then [total_debit_amount (toRows ts)] else [])
  ++ (if 2 ≤ (debitMonths (toRows ts)).length then
        [npMean (monthlyDebitTotals (toRows ts)) + eps] else [])
  ++ (if 1 < (incomeValues (toRows ts)).length then
        [npMean (incomeValues (toRows ts)) + eps] else [])

/-- Every list `analyze_transactions` takes a `np.mean` / `np.std` of on
input `ts` (each must be non-empty for the numpy statistics to be
defined), in pipeline order. -/
def analyzeMeanArgs (ts : List Transaction) : List (List ℚ) :=
  if ts = [] then [] else
  [incomeValues (toRows ts), spendingValues (toRows ts), savingsRates (toRows ts)]
  ++ (if 2 ≤ (debitMonths (toRows ts)).length then [monthlyDebitTotals (toRows ts)] else [])
  ++ (if 1 < (incomeValues (toRows ts)).length then [incomeValues (toRows ts)] else [])

/-- The spec's loan-eligibility rule cascade, §4.5, written from the
spec's words for the refinement comparison with
`determine_loan_eligibility`: the first matching rule's reason, `none`
when no rule matches (eligibility granted). -/
def specRuleCascade (score e h avg cons : ℚ) : Option String :=
  if 75 < score then some "High risk profile with significant financial volatility"
  else if e < 3/10 then some "Insufficient essential spending pattern indicating unstable lifestyle"
  else if 25/100 < h then some "Excessive high-risk spending indicating poor financial discipline"
  else if avg < -(1/10) then some "Negative savings rate indicating financial stress"
  else if cons < 3/10 then some "Highly inconsistent financial behavior"
  else none

/-! ## Helper lemmas -/

lemma round_mono {a b : ℚ} (h : a ≤ b) : round a ≤ round b := by
  rw [round_eq, round_eq]
  exact Int.floor_le_floor (by linarith)

lemma round1_mono {a b : ℚ} (h : a ≤ b) : round1 a ≤ round1 b := by
  unfold round1
  have h10 : round (a * 10) ≤ round (b * 10) := round_mono (by linarith)
  have := (div_le_div_iff_of_pos_right (show (0:ℚ) < 10 by norm_num)).mpr (Int.cast_le.mpr h10 : ((round (a * 10) : ℤ) : ℚ) ≤ _)
  exact this

lemma round3_mono {a b : ℚ} (h : a ≤ b) : round3 a ≤ round3 b := by
  unfold round3
  have h10 : round (a * 1000) ≤ round (b * 1000) := round_mono (by linarith)
  exact (div_le_div_iff_of_pos_right (show (0:ℚ) < 1000 by norm_num)).mpr
    (Int.cast_le.mpr h10 : ((round (a * 1000) : ℤ) : ℚ) ≤ _)

lemma round1_zero : round1 0 = 0 := by simp [round1]

lemma round3_zero : round3 0 = 0 := by simp [round3]

lemma round3_one : round3 1 = 1 := by
  rw [round3, show ((1:ℚ) * 1000) = ((1000 : ℤ) : ℚ) by norm_num, round_intCast]
  norm_num

lemma round1_fifty : round1 50 = 50 := by
  rw [round1, show ((50:ℚ) * 10) = ((500 : ℤ) : ℚ) by norm_num, round_intCast]
  norm_num

lemma round1_hundred : round1 100 = 100 := by
  rw [round1, show ((100:ℚ) * 10) = ((1000 : ℤ) : ℚ) by norm_num, round_intCast]
  norm_num

lemma round1_nonneg {q : ℚ} (h : 0 ≤ q) : 0 ≤ round1 q :=
  round1_zero ▸ round1_mono h

lemma round3_nonneg {q : ℚ} (h : 0 ≤ q) : 0 ≤ round3 q :=
  round3_zero ▸ round3_mono h

lemma round3_le_one {q : ℚ} (h : q ≤ 1) : round3 q ≤ 1 :=
  round3_one ▸ round3_mono h

/-- One `round(_, 3)` moves a value by at most `1/2000`. -/
lemma abs_round3_sub (q : ℚ) : |round3 q - q| ≤ 1/2000 := by
  have h := abs_sub_round (q * 1000)
  rw [abs_sub_comm] at h
  have heq : round3 q - q = (((round (q * 1000) : ℤ) : ℚ) - q * 1000) / 1000 := by
    rw [round3]; ring
  rw [heq, abs_div, abs_of_pos (show (0:ℚ) < 1000 by norm_num)]
  rw [div_le_div_iff₀ (by norm_num) (by norm_num)]
  nlinarith [h]

/-- Summing `n` values each rounded to 3 decimals moves the sum by at
most `n/2000`. -/
lemma sum_map_round3_close {α : Type} (f : α → ℚ) :
    ∀ l : List α,
      |(l.map (fun a => round3 (f a))).sum - (l.map f).sum| ≤ (l.length : ℚ) / 2000 := by
  intro l
  induction l with
  | nil => simp
  | cons a t ih =>
    simp only [List.map_cons, List.sum_cons, List.length_cons]
    have h1 := abs_round3_sub (f a)
    have tri : |round3 (f a) + (t.map (fun a => round3 (f a))).sum - (f a + (t.map f).sum)|
        ≤ |round3 (f a) - f a| + |(t.map (fun a => round3 (f a))).sum - (t.map f).sum| := by
      have : round3 (f a) + (t.map (fun a => round3 (f a))).sum - (f a + (t.map f).sum)
          = (round3 (f a) - f a) + ((t.map (fun a => round3 (f a))).sum - (t.map f).sum) := by
        ring
      rw [this]
      exact abs_add _ _
    refine tri.trans ?_
    push_cast
    have := add_le_add h1 ih
    linarith

lemma sum_map_div {α : Type} (g : α → ℚ) (T : ℚ) :
    ∀ l : List α, (l.map (fun a => g a / T)).sum = (l.map g).sum / T := by
  intro l
  induction l with
  | nil => simp
  | cons a t ih => simp only [List.map_cons, List.sum_cons, ih, div_add_div_same]

/-- Amounts survive the dataframe conversion unchanged: every row amount
is some transaction's amount. -/
lemma row_amount_nonneg {ts : List Transaction} (hpos : ∀ t ∈ ts, 0 ≤ t.amount) :
    ∀ r ∈ toRows ts, 0 ≤ r.amount := by
  intro r hr
  rcases List.mem_map.mp hr with ⟨t, ht, rfl⟩
  exact hpos t ht

lemma debitRows_amount_nonneg {rs : List Row} (h : ∀ r ∈ rs, 0 ≤ r.amount) :
    ∀ r ∈ debitRows rs, 0 ≤ r.amount := fun r hr =>
  h r (List.mem_of_mem_filter hr)

lemma sum_amounts_nonneg {rs : List Row} (h : ∀ r ∈ rs, 0 ≤ r.amount)
    (p : Row → Bool) : 0 ≤ ((rs.filter p).map Row.amount).sum := by
  apply List.sum_nonneg
  intro x hx
  rcases List.mem_map.mp hx with ⟨r, hr, rfl⟩
  exact h r (List.mem_of_mem_filter hr)

lemma total_debit_amount_nonneg {rs : List Row} (h : ∀ r ∈ rs, 0 ≤ r.amount) :
    0 ≤ total_debit_amount rs := by
  apply List.sum_nonneg
  intro x hx
  rcases List.mem_map.mp hx with ⟨r, hr, rfl⟩
  exact debitRows_amount_nonneg h r hr

/-- A filtered debit sum is at most the total debit amount, for
non-negative amounts. -/
lemma filtered_sum_le_total {rs : List Row} (h : ∀ r ∈ rs, 0 ≤ r.amount)
    (p : Row → Bool) :
    (((debitRows rs).filter p).map Row.amount).sum ≤ total_debit_amount rs := by
  apply List.Sublist.sum_le_sum
  · exact List.Sublist.map Row.amount (List.filter_sublist _)
  · intro a ha
    rcases List.mem_map.mp ha with ⟨r, hr, rfl⟩
    exact debitRows_amount_nonneg h r hr

lemma npMean_nonneg {l : List ℚ} (h : ∀ x ∈ l, 0 ≤ x) : 0 ≤ npMean l :=
  div_nonneg (List.sum_nonneg h) (Nat.cast_nonneg _)

lemma eps_pos : 0 < eps := by norm_num [eps]

lemma creditSumIn_nonneg {rs : List Row} (h : ∀ r ∈ rs, 0 ≤ r.amount)
    (m : String) : 0 ≤ creditSumIn rs m :=
  sum_amounts_nonneg h _

lemma debitSumIn_nonneg {rs : List Row} (h : ∀ r ∈ rs, 0 ≤ r.amount)
    (m : String) : 0 ≤ debitSumIn rs m :=
  sum_amounts_nonneg h _

lemma incomeValues_nonneg {rs : List Row} (h : ∀ r ∈ rs, 0 ≤ r.amount) :
    ∀ x ∈ incomeValues rs, 0 ≤ x := by
  intro x hx
  rcases List.mem_map.mp hx with ⟨m, _, rfl⟩
  exact creditSumIn_nonneg h m

lemma spendingValues_nonneg {rs : List Row} (h : ∀ r ∈ rs, 0 ≤ r.amount) :
    ∀ x ∈ spendingValues rs, 0 ≤ x := by
  intro x hx
  rcases List.mem_map.mp hx with ⟨m, _, rfl⟩
  exact debitSumIn_nonneg h m

lemma monthlyDebitTotals_nonneg {rs : List Row} (h : ∀ r ∈ rs, 0 ≤ r.amount) :
    ∀ x ∈ monthlyDebitTotals rs, 0 ≤ x := by
  intro x hx
  rcases List.mem_map.mp hx with ⟨m, _, rfl⟩
  exact debitSumIn_nonneg h m

/-- The generic `[0, 1]` bound for the three behavioral ratios. -/
lemma ratio_raw_bounds {rs : List Row} (h : ∀ r ∈ rs, 0 ≤ r.amount)
    (p : Row → Bool) (hT : 0 < total_debit_amount rs) :
    0 ≤ (((debitRows rs).filter p).map Row.amount).sum / total_debit_amount rs ∧
      (((debitRows rs).filter p).map Row.amount).sum / total_debit_amount rs ≤ 1 := by
  constructor
  · exact div_nonneg (sum_amounts_nonneg (debitRows_amount_nonneg h) p) hT.le
  · exact (div_le_one hT).mpr (filtered_sum_le_total h p)

lemma essentialRatioRaw_bounds (ts : List Transaction)
    (hpos : ∀ t ∈ ts, 0 ≤ t.amount) :
    0 ≤ essentialRatioRaw (toRows ts) ∧ essentialRatioRaw (toRows ts) ≤ 1 := by
  rw [essentialRatioRaw]
  split
  · exact ratio_raw_bounds (row_amount_nonneg hpos) _ (by assumption)
  · norm_num

lemma highRiskRatioRaw_bounds (ts : List Transaction)
    (hpos : ∀ t ∈ ts, 0 ≤ t.amount) :
    0 ≤ highRiskRatioRaw (toRows ts) ∧ highRiskRatioRaw (toRows ts) ≤ 1 := by
  rw [highRiskRatioRaw]
  split
  · exact ratio_raw_bounds (row_amount_nonneg hpos) _ (by assumption)
  · norm_num

lemma weekendRatioRaw_bounds (ts : List Transaction)
    (hpos : ∀ t ∈ ts, 0 ≤ t.amount) :
    0 ≤ weekendRatioRaw (toRows ts) ∧ weekendRatioRaw (toRows ts) ≤ 1 := by
  rw [weekendRatioRaw]
  split
  · exact ratio_raw_bounds (row_amount_nonneg hpos) _ (by assumption)
  · norm_num

/-- On a non-empty transaction list `analyze_transactions` takes the
pipeline path; its result spelt out stage by stage. -/
lemma analyze_eq (now : DateT) (ts : List Transaction) (hne : ts ≠ []) :
    analyze_transactions now ts =
      { overall_risk_score := round1 (pipelineScore ts)
        risk_category := determine_risk_category (pipelineScore ts)
        loan_eligibility := (determine_loan_eligibility (pipelineScore ts)
          (calculate_financial_summary (toRows ts))
          (calculate_behavioral_analysis (toRows ts))).1
        eligibility_reason := (determine_loan_eligibility (pipelineScore ts)
          (calculate_financial_summary (toRows ts))
          (calculate_behavioral_analysis (toRows ts))).2
        financial_summary := calculate_financial_summary (toRows ts)
        behavioral_analysis := calculate_behavioral_analysis (toRows ts)
        risk_assessment_details :=
          calculate_risk_assessment (calculate_behavioral_analysis (toRows ts))
        created_at := now } := by
  rw [analyze_transactions, if_neg hne]
  rfl

/-! ## Concrete inputs used by the witnesses -/

/-- A single mid-week essential debit transaction. -/
def txGroc : Transaction :=
  ⟨⟨2024, 1, 10⟩, "supermarket", 100, TransactionType.debit, "groceries", none⟩

/-- A single mid-week high-risk debit transaction. -/
def txGamble : Transaction :=
  ⟨⟨2024, 1, 10⟩, "casino night", 100, TransactionType.debit, "gambling", none⟩

/-- A credit (salary) transaction in the same month. -/
def txSal : Transaction :=
  ⟨⟨2024, 1, 5⟩, "salary", 200, TransactionType.credit, "salary", none⟩

/-- An arbitrary clock value for the `created_at` parameter. -/
def dNow : DateT := ⟨2026, 10, 12⟩

/-! ## The claims -/

/-- C2: for the empty transaction list, `analyze_transactions` skips all
pipeline stages and returns the fixed sentinel result:
`overall_risk_score = 50.0`, medium risk category, loan eligibility
false, reason "Insufficient transaction history for assessment",
`transaction_frequency = 0`, all monthly mappings and the category
distribution empty, Medium spending stability, and
`loan_eligibility_factors = ["Insufficient data"]`. -/
theorem claim_c2_empty_sentinel (now : DateT) :
    analyze_transactions now [] = generate_empty_result now ∧
    (analyze_transactions now []).overall_risk_score = 50 ∧
    (analyze_transactions now []).risk_category = RiskCategory.medium ∧
    (analyze_transactions now []).loan_eligibility = false ∧
    (analyze_transactions now []).eligibility_reason =
      "Insufficient transaction history for assessment" ∧
    (analyze_transactions now []).financial_summary.transaction_frequency = 0 ∧
    (analyze_transactions now []).financial_summary.monthly_spendings = [] ∧
    (analyze_transactions now []).financial_summary.monthly_savings = [] ∧
    (analyze_transactions now []).behavioral_analysis.income_and_spending_analysis = [] ∧
    (analyze_transactions now []).behavioral_analysis.spending_pattern_distribution = [] ∧
    (analyze_transactions now []).behavioral_analysis.spending_stability =
      SpendingStability.medium ∧
    (analyze_transactions now []).risk_assessment_details.loan_eligibility_factors =
      ["Insufficient data"] :=
  ⟨rfl, rfl, rfl, rfl, rfl, rfl, rfl, rfl, rfl, rfl, rfl, rfl⟩

/-- C10: on the empty-input path the sentinel's
`risk_essential_spending` is 50.0 — its maximum, not zero — while
`high_risk_spending` and `weekend_spending` are both 0.0. -/
theorem claim_c10_empty_risk_details (now : DateT) :
    (analyze_transactions now []).risk_assessment_details.risk_essential_spending = 50 ∧
    (analyze_transactions now []).risk_assessment_details.risk_essential_spending ≠ 0 ∧
    (analyze_transactions now []).risk_assessment_details.high_risk_spending = 0 ∧
    (analyze_transactions now []).risk_assessment_details.weekend_spending = 0 := by
  refine ⟨rfl, ?_, rfl, rfl⟩
  show (50 : ℚ) ≠ 0
  norm_num

/-- C9: `analyze_transactions` is deterministic — a pure function of the
transaction list: two calls on the same list agree in every field except
`created_at` (the clock parameter `now`), whatever the two clock values
are. -/
theorem claim_c9_deterministic (n1 n2 : DateT) (ts : List Transaction) :
    (analyze_transactions n1 ts).overall_risk_score =
      (analyze_transactions n2 ts).overall_risk_score ∧
    (analyze_transactions n1 ts).risk_category =
      (analyze_transactions n2 ts).risk_category ∧
    (analyze_transactions n1 ts).loan_eligibility =
      (analyze_transactions n2 ts).loan_eligibility ∧
    (analyze_transactions n1 ts).eligibility_reason =
      (analyze_transactions n2 ts).eligibility_reason ∧
    (analyze_transactions n1 ts).financial_summary =
      (analyze_transactions n2 ts).financial_summary ∧
    (analyze_transactions n1 ts).behavioral_analysis =
      (analyze_transactions n2 ts).behavioral_analysis ∧
    (analyze_transactions n1 ts).risk_assessment_details =
      (analyze_transactions n2 ts).risk_assessment_details := by
  by_cases h : ts = [] <;>
    simp [analyze_transactions, h, generate_empty_result]

/-- C5: for every non-empty transaction list and every month present in
the data, the Financial Summarizer's `monthly_savings[month]` equals
`max(0, income[month] - spending[month])` (income = the month's credit
total, spending = its debit total) and is therefore never negative, even
when the month's debits exceed its credits. -/
theorem claim_c5_savings_clamped (now : DateT) (ts : List Transaction)
    (hne : ts ≠ []) :
    (∀ m ∈ months (toRows ts),
        (m, max 0 (creditSumIn (toRows ts) m - debitSumIn (toRows ts) m)) ∈
          (analyze_transactions now ts).financial_summary.monthly_savings) ∧
    (∀ p ∈ (analyze_transactions now ts).financial_summary.monthly_savings,
        p.2 = max 0 (creditSumIn (toRows ts) p.1 - debitSumIn (toRows ts) p.1) ∧
          0 ≤ p.2) := by
  rw [analyze_eq now ts hne]
  constructor
  · intro m hm
    exact List.mem_map.mpr ⟨m, hm, rfl⟩
  · intro p hp
    rcases List.mem_map.mp hp with ⟨m, _, rfl⟩
    exact ⟨rfl, le_max_left _ _⟩

/-- C5 witness: the claim instantiated on a one-transaction list. -/
theorem claim_c5_witness :
    ([txGroc] : List Transaction) ≠ [] ∧
    ((∀ m ∈ months (toRows [txGroc]),
        (m, max 0 (creditSumIn (toRows [txGroc]) m - debitSumIn (toRows [txGroc]) m)) ∈
          (analyze_transactions dNow [txGroc]).financial_summary.monthly_savings) ∧
     (∀ p ∈ (analyze_transactions dNow [txGroc]).financial_summary.monthly_savings,
        p.2 = max 0 (creditSumIn (toRows [txGroc]) p.1 - debitSumIn (toRows [txGroc]) p.1) ∧
          0 ≤ p.2)) :=
  ⟨by decide, claim_c5_savings_clamped dNow [txGroc] (by decide)⟩

/-- C4: for every non-empty transaction list with the data model's
non-negative amounts, if the total debit amount is 0 the three behavioral
ratios are all 0; otherwise each equals the corresponding category-set
(resp. weekend-flag) debit sum divided by the total debit amount; each
lies in `[0, 1]`; and the stored `BehavioralPatterns` fields are exactly
these ratios rounded to 3 decimals. -/
theorem claim_c4_behavioral_ratios (now : DateT) (ts : List Transaction)
    (hne : ts ≠ []) (hpos : ∀ t ∈ ts, 0 ≤ t.amount) :
    (total_debit_amount (toRows ts) = 0 →
        essentialRatioRaw (toRows ts) = 0 ∧ highRiskRatioRaw (toRows ts) = 0 ∧
          weekendRatioRaw (toRows ts) = 0) ∧
    (total_debit_amount (toRows ts) ≠ 0 →
        essentialRatioRaw (toRows ts) =
          essentialSpendingSum (toRows ts) / total_debit_amount (toRows ts) ∧
        highRiskRatioRaw (toRows ts) =
          highRiskSpendingSum (toRows ts) / total_debit_amount (toRows ts) ∧
        weekendRatioRaw (toRows ts) =
          weekendSpendingSum (toRows ts) / total_debit_amount (toRows ts)) ∧
    (0 ≤ essentialRatioRaw (toRows ts) ∧ essentialRatioRaw (toRows ts) ≤ 1) ∧
    (0 ≤ highRiskRatioRaw (toRows ts) ∧ highRiskRatioRaw (toRows ts) ≤ 1) ∧
    (0 ≤ weekendRatioRaw (toRows ts) ∧ weekendRatioRaw (toRows ts) ≤ 1) ∧
    (analyze_transactions now ts).behavioral_analysis.behavioral_patterns =
      { essential_spending_ratio_ := round3 (essentialRatioRaw (toRows ts))
        high_risk_spending_ratio_ := round3 (highRiskRatioRaw (toRows ts))
        weekend_spending_ratio_ := round3 (weekendRatioRaw (toRows ts)) } := by
  refine ⟨?_, ?_, essentialRatioRaw_bounds ts hpos, highRiskRatioRaw_bounds ts hpos,
    weekendRatioRaw_bounds ts hpos, ?_⟩
  · intro h0
    refine ⟨?_, ?_, ?_⟩ <;>
      simp [essentialRatioRaw, highRiskRatioRaw, weekendRatioRaw, h0]
  · intro h0
    have hT : 0 < total_debit_amount (toRows ts) :=
      lt_of_le_of_ne (total_debit_amount_nonneg (row_amount_nonneg hpos)) (Ne.symm h0)
    refine ⟨?_, ?_, ?_⟩ <;>
      simp [essentialRatioRaw, highRiskRatioRaw, weekendRatioRaw, hT,
        essentialSpendingSum, highRiskSpendingSum, weekendSpendingSum]
  · rw [analyze_eq now ts hne]
    rfl

/-- C4 witness: the claim instantiated on a one-debit-transaction list. -/
theorem claim_c4_witness :
    ([txGroc] : List Transaction) ≠ [] ∧ (∀ t ∈ ([txGroc] : List Transaction), 0 ≤ t.amount) ∧
    ((0 ≤ essentialRatioRaw (toRows [txGroc]) ∧ essentialRatioRaw (toRows [txGroc]) ≤ 1) ∧
     (0 ≤ highRiskRatioRaw (toRows [txGroc]) ∧ highRiskRatioRaw (toRows [txGroc]) ≤ 1) ∧
     (0 ≤ weekendRatioRaw (toRows [txGroc]) ∧ weekendRatioRaw (toRows [txGroc]) ≤ 1) ∧
     (analyze_transactions dNow [txGroc]).behavioral_analysis.behavioral_patterns =
       { essential_spending_ratio_ := round3 (essentialRatioRaw (toRows [txGroc]))
         high_risk_spending_ratio_ := round3 (highRiskRatioRaw (toRows [txGroc]))
         weekend_spending_ratio_ := round3 (weekendRatioRaw (toRows [txGroc])) }) :=
  ⟨by decide, by decide,
    (claim_c4_behavioral_ratios dNow [txGroc] (by decide) (by decide)).2.2⟩

/-- C6: the category distribution is restricted to debit rows grouped by
lower-cased category, each stored fraction is the category's debit sum
divided by the total debit sum rounded to 3 decimals, the fractions sum
to 1 up to rounding (each of the `n` roundings moves the sum by at most
`1/2000`) when the total is positive, and the mapping is empty when the
total is 0. -/
theorem claim_c6_category_distribution (now : DateT) (ts : List Transaction)
    (hne : ts ≠ []) :
    (∀ p ∈ (analyze_transactions now ts).behavioral_analysis.spending_pattern_distribution,
        (∃ t ∈ ts, t.type = TransactionType.debit ∧ p.1 = strLower t.category) ∧
        p.2 = round3 (categorySum (toRows ts) p.1 / totalSpending (toRows ts))) ∧
    (totalSpending (toRows ts) = 0 →
        (analyze_transactions now ts).behavioral_analysis.spending_pattern_distribution = []) ∧
    (0 < totalSpending (toRows ts) →
        |(((analyze_transactions now ts).behavioral_analysis.spending_pattern_distribution).map
            Prod.snd).sum - 1| ≤
          (((analyze_transactions now ts).behavioral_analysis.spending_pattern_distribution).length : ℚ)
            / 2000) := by
  have hba : (analyze_transactions now ts).behavioral_analysis.spending_pattern_distribution
      = spendingPatternDistribution (toRows ts) := by
    rw [analyze_eq now ts hne]
    rfl
  rw [hba]
  refine ⟨?_, ?_, ?_⟩
  · intro p hp
    unfold spendingPatternDistribution at hp
    split at hp
    · rcases List.mem_map.mp hp with ⟨c, hc, rfl⟩
      refine ⟨?_, rfl⟩
      rcases List.mem_map.mp (List.mem_dedup.mp hc) with ⟨r, hr, rfl⟩
      have hr2 := List.mem_filter.mp hr
      rcases List.mem_map.mp hr2.1 with ⟨t, ht, rfl⟩
      exact ⟨t, ht, by simpa using hr2.2, rfl⟩
    · simp at hp
  · intro h0
    unfold spendingPatternDistribution
    rw [if_neg (by rw [h0]; exact lt_irrefl 0)]
  · intro hT
    unfold spendingPatternDistribution
    rw [if_pos hT]
    rw [List.map_map, List.length_map]
    have hclose := sum_map_round3_close
      (fun c => categorySum (toRows ts) c / totalSpending (toRows ts))
      (categories (toRows ts))
    have hsum : ((categories (toRows ts)).map
        (fun c => categorySum (toRows ts) c / totalSpending (toRows ts))).sum = 1 := by
      rw [sum_map_div]
      exact div_self (ne_of_gt hT)
    rw [hsum] at hclose
    simpa using hclose

/-- C6 witness: the claim instantiated on a one-debit-transaction list. -/
theorem claim_c6_witness :
    ([txGroc] : List Transaction) ≠ [] ∧
    (totalSpending (toRows [txGroc]) = 0 →
        (analyze_transactions dNow [txGroc]).behavioral_analysis.spending_pattern_distribution = []) ∧
    (0 < totalSpending (toRows [txGroc]) →
        |(((analyze_transactions dNow [txGroc]).behavioral_analysis.spending_pattern_distribution).map
            Prod.snd).sum - 1| ≤
          (((analyze_transactions dNow [txGroc]).behavioral_analysis.spending_pattern_distribution).length : ℚ)
            / 2000) :=
  ⟨by decide, (claim_c6_category_distribution dNow [txGroc] (by decide)).2⟩

/-- The final clamp `min(100, max(0, total_risk))` keeps the overall
score in `[0, 100]` whatever the summands are. -/
lemma calculate_overall_risk_score_bounds (fs : FinancialSummary)
    (ba : BehavioralAnalysis) :
    0 ≤ calculate_overall_risk_score fs ba ∧
      calculate_overall_risk_score fs ba ≤ 100 :=
  ⟨le_min (by norm_num) (le_max_left _ _), min_le_left _ _⟩

/-- C1: for every non-empty transaction list (with the data model's
non-negative amounts) the returned `overall_risk_score` lies in
`[0, 100]` and the three risk sub-scores lie within their documented
bounds: `risk_essential_spending` in `[0, 50]`, `high_risk_spending` in
`[0, 100]`, `weekend_spending` in `[0, 50]`. -/
theorem claim_c1_score_bounds (now : DateT) (ts : List Transaction)
    (hne : ts ≠ []) (hpos : ∀ t ∈ ts, 0 ≤ t.amount) :
    (0 ≤ (analyze_transactions now ts).overall_risk_score ∧
      (analyze_transactions now ts).overall_risk_score ≤ 100) ∧
    (0 ≤ (analyze_transactions now ts).risk_assessment_details.risk_essential_spending ∧
      (analyze_transactions now ts).risk_assessment_details.risk_essential_spending ≤ 50) ∧
    (0 ≤ (analyze_transactions now ts).risk_assessment_details.high_risk_spending ∧
      (analyze_transactions now ts).risk_assessment_details.high_risk_spending ≤ 100) ∧
    (0 ≤ (analyze_transactions now ts).risk_assessment_details.weekend_spending ∧
      (analyze_transactions now ts).risk_assessment_details.weekend_spending ≤ 50) := by
  obtain ⟨he0, he1⟩ := essentialRatioRaw_bounds ts hpos
  obtain ⟨hh0, hh1⟩ := highRiskRatioRaw_bounds ts hpos
  obtain ⟨hw0, hw1⟩ := weekendRatioRaw_bounds ts hpos
  have hre0 : 0 ≤ round3 (essentialRatioRaw (toRows ts)) := round3_nonneg he0
  have hrh0 : 0 ≤ round3 (highRiskRatioRaw (toRows ts)) := round3_nonneg hh0
  have hrh1 : round3 (highRiskRatioRaw (toRows ts)) ≤ 1 := round3_le_one hh1
  have hrw0 : 0 ≤ round3 (weekendRatioRaw (toRows ts)) := round3_nonneg hw0
  obtain ⟨hs0, hs1⟩ := calculate_overall_risk_score_bounds
    (calculate_financial_summary (toRows ts)) (calculate_behavioral_analysis (toRows ts))
  rw [analyze_eq now ts hne]
  refine ⟨⟨?_, ?_⟩, ⟨?_, ?_⟩, ⟨?_, ?_⟩, ⟨?_, ?_⟩⟩
  · exact round1_nonneg hs0
  · exact le_trans (round1_mono hs1) (le_of_eq round1_hundred)
  · exact round1_nonneg (le_max_left _ _)
  · show round1 (max 0 (50 - round3 (essentialRatioRaw (toRows ts)) * 50)) ≤ 50
    refine le_trans (round1_mono ?_) (le_of_eq round1_fifty)
    exact max_le (by norm_num) (by nlinarith)
  · show 0 ≤ round1 (round3 (highRiskRatioRaw (toRows ts)) * 100)
    exact round1_nonneg (by nlinarith)
  · show round1 (round3 (highRiskRatioRaw (toRows ts)) * 100) ≤ 100
    exact le_trans (round1_mono (by nlinarith)) (le_of_eq round1_hundred)
  · show 0 ≤ round1 (min (round3 (weekendRatioRaw (toRows ts)) * 100) 50)
    exact round1_nonneg (le_min (by nlinarith) (by norm_num))
  · show round1 (min (round3 (weekendRatioRaw (toRows ts)) * 100) 50) ≤ 50
    exact le_trans (round1_mono (min_le_right _ _)) (le_of_eq round1_fifty)

/-- C1 witness: the claim instantiated on a one-transaction list. -/
theorem claim_c1_witness :
    ([txGroc] : List Transaction) ≠ [] ∧ (∀ t ∈ ([txGroc] : List Transaction), 0 ≤ t.amount) ∧
    (0 ≤ (analyze_transactions dNow [txGroc]).overall_risk_score ∧
      (analyze_transactions dNow [txGroc]).overall_risk_score ≤ 100) :=
  ⟨by decide, by decide,
    (claim_c1_score_bounds dNow [txGroc] (by decide) (by decide)).1⟩

/-- C3: loan eligibility is decided by the short-circuit cascade of five
rules in the spec's exact order (`determine_loan_eligibility` refines
`specRuleCascade`: whenever the spec cascade fires a rule, the code
denies with exactly that rule's reason; when no rule fires, the code
grants eligibility); in particular, whenever both rule 1
(`overall_risk_score > 75`) and rule 2 (`essential_ratio < 0.3`) hold,
the returned reason is exactly the rule-1 message. -/
theorem claim_c3_rule_cascade (now : DateT) (ts : List Transaction)
    (hne : ts ≠ [])
    (h75 : 75 < pipelineScore ts)
    (he : (calculate_behavioral_analysis (toRows ts)).behavioral_patterns.essential_spending_ratio_
      < 3/10) :
    (∀ (s : ℚ) (fs : FinancialSummary) (ba : BehavioralAnalysis),
        (∀ msg, specRuleCascade s ba.behavioral_patterns.essential_spending_ratio_
            ba.behavioral_patterns.high_risk_spending_ratio_ (avgSavingsRate ba)
            fs.consistency_score = some msg →
          determine_loan_eligibility s fs ba = (false, msg)) ∧
        (specRuleCascade s ba.behavioral_patterns.essential_spending_ratio_
            ba.behavioral_patterns.high_risk_spending_ratio_ (avgSavingsRate ba)
            fs.consistency_score = none →
          (determine_loan_eligibility s fs ba).1 = true)) ∧
    (analyze_transactions now ts).loan_eligibility = false ∧
    (analyze_transactions now ts).eligibility_reason =
      "High risk profile with significant financial volatility" := by
  have hdet : determine_loan_eligibility (pipelineScore ts)
      (calculate_financial_summary (toRows ts))
      (calculate_behavioral_analysis (toRows ts)) =
      (false, "High risk profile with significant financial volatility") := by
    simp only [determine_loan_eligibility]
    rw [if_pos h75]
  refine ⟨?_, ?_, ?_⟩
  · intro s fs ba
    constructor
    · intro msg hmsg
      simp only [specRuleCascade] at hmsg
      simp only [determine_loan_eligibility]
      split_ifs at hmsg ⊢ <;> cases hmsg <;> rfl
    · intro hnone
      simp only [specRuleCascade] at hnone
      split_ifs at hnone with h1 h2 h3 h4 h5 <;>
        first
          | exact Option.noConfusion hnone
          | (simp only [determine_loan_eligibility]
             rw [if_neg h1, if_neg h2, if_neg h3, if_neg h4, if_neg h5])
  · rw [analyze_eq now ts hne]
    show (determine_loan_eligibility (pipelineScore ts)
      (calculate_financial_summary (toRows ts))
      (calculate_behavioral_analysis (toRows ts))).1 = false
    rw [hdet]
  · rw [analyze_eq now ts hne]
    show (determine_loan_eligibility (pipelineScore ts)
      (calculate_financial_summary (toRows ts))
      (calculate_behavioral_analysis (toRows ts))).2 =
        "High risk profile with significant financial volatility"
    rw [hdet]

lemma ratSqrt_zero : ratSqrt 0 = 0 := by
  norm_num [ratSqrt]

lemma npStd_singleton (x : ℚ) : npStd [x] = 0 := by
  have h : popVar [x] = 0 := by
    simp [popVar, npMean]
  rw [npStd, h, ratSqrt_zero]

/-- C3 witness: a single high-risk debit transaction drives the score to
100 (> 75) with essential ratio 0 (< 0.3); the returned reason is the
rule-1 message, confirming first-match-wins. -/
theorem claim_c3_witness :
    ([txGamble] : List Transaction) ≠ [] ∧
    75 < pipelineScore [txGamble] ∧
    (calculate_behavioral_analysis (toRows [txGamble])).behavioral_patterns.essential_spending_ratio_
      < 3/10 ∧
    ((analyze_transactions dNow [txGamble]).loan_eligibility = false ∧
      (analyze_transactions dNow [txGamble]).eligibility_reason =
        "High risk profile with significant financial volatility") := by
  have hrows : toRows [txGamble] =
      [{ date := ⟨2024, 1, 10⟩, amount := 100, type := TransactionType.debit,
         category := "gambling", weekday := 2, month := "2024-01", is_weekend := false }] := by
    simp [toRows, toRow, txGamble, DateT.weekday, DateT.daysFromCivil, DateT.monthKey,
      strLower, charLower, intToStr, natToStr, natDigitsAux, pad2, weekend_days]
  have hm : months (toRows [txGamble]) = ["2024-01"] := by
    simp [months, hrows]
  have hcred : creditSumIn (toRows [txGamble]) "2024-01" = 0 := by
    simp [creditSumIn, hrows]
  have hdeb : debitSumIn (toRows [txGamble]) "2024-01" = 100 := by
    simp [debitSumIn, hrows]
  have hiv : incomeValues (toRows [txGamble]) = [0] := by
    rw [incomeValues, hm]; simp [hcred]
  have hsv : spendingValues (toRows [txGamble]) = [100] := by
    rw [spendingValues, hm]; simp [hdeb]
  have hivr : incomeVolatilityRaw (toRows [txGamble]) = 0 := by
    rw [incomeVolatilityRaw, hiv, npStd_singleton]; norm_num
  have hsvr : spendingVolatilityRaw (toRows [txGamble]) = 0 := by
    rw [spendingVolatilityRaw, hsv, npStd_singleton]; norm_num
  have hcons : consistencyRaw (toRows [txGamble]) = 1 := by
    rw [consistencyRaw, hivr, hsvr]; norm_num
  have hfs_iv : (calculate_financial_summary (toRows [txGamble])).income_volatility = 0 := by
    show round3 (incomeVolatilityRaw (toRows [txGamble])) = 0
    rw [hivr, round3_zero]
  have hfs_sv : (calculate_financial_summary (toRows [txGamble])).spending_volatility = 0 := by
    show round3 (spendingVolatilityRaw (toRows [txGamble])) = 0
    rw [hsvr, round3_zero]
  have hfs_cons : (calculate_financial_summary (toRows [txGamble])).consistency_score = 1 := by
    show round3 (consistencyRaw (toRows [txGamble])) = 1
    rw [hcons, round3_one]
  have hfreq : (calculate_financial_summary (toRows [txGamble])).transaction_frequency = 1 := by
    show (toRows [txGamble]).length = 1
    rw [hrows]
    rfl
  have htot : total_debit_amount (toRows [txGamble]) = 100 := by
    simp [total_debit_amount, debitRows, hrows]
  have hessS : essentialSpendingSum (toRows [txGamble]) = 0 := by
    simp [essentialSpendingSum, debitRows, essential_categories, hrows]
  have hhrS : highRiskSpendingSum (toRows [txGamble]) = 100 := by
    simp [highRiskSpendingSum, debitRows, high_risk_categories, hrows]
  have hwkS : weekendSpendingSum (toRows [txGamble]) = 0 := by
    simp [weekendSpendingSum, debitRows, hrows]
  have hess : essentialRatioRaw (toRows [txGamble]) = 0 := by
    rw [essentialRatioRaw, if_pos (by rw [htot]; norm_num), hessS, htot]
    norm_num
  have hhr : highRiskRatioRaw (toRows [txGamble]) = 1 := by
    rw [highRiskRatioRaw, if_pos (by rw [htot]; norm_num), hhrS, htot]
    norm_num
  have hwk : weekendRatioRaw (toRows [txGamble]) = 0 := by
    rw [weekendRatioRaw, if_pos (by rw [htot]; norm_num), hwkS, htot]
    norm_num
  have hbae : (calculate_behavioral_analysis (toRows [txGamble])).behavioral_patterns.essential_spending_ratio_
      = 0 := by
    show round3 (essentialRatioRaw (toRows [txGamble])) = 0
    rw [hess, round3_zero]
  have hbah : (calculate_behavioral_analysis (toRows [txGamble])).behavioral_patterns.high_risk_spending_ratio_
      = 1 := by
    show round3 (highRiskRatioRaw (toRows [txGamble])) = 1
    rw [hhr, round3_one]
  have hbaw : (calculate_behavioral_analysis (toRows [txGamble])).behavioral_patterns.weekend_spending_ratio_
      = 0 := by
    show round3 (weekendRatioRaw (toRows [txGamble])) = 0
    rw [hwk, round3_zero]
  have hisa : incomeSpendingAnalysis (toRows [txGamble]) =
      [("2024-01", { income := 0, spending := 100, savings_rate := -100000000 })] := by
    rw [incomeSpendingAnalysis, hm]
    simp only [List.map_cons, List.map_nil, monthAnalysis, hcred, hdeb]
    norm_num [eps]
  have havg : avgSavingsRate (calculate_behavioral_analysis (toRows [txGamble]))
      = -100000000 := by
    show npMean ((incomeSpendingAnalysis (toRows [txGamble])).map (fun p => p.2.savings_rate))
      = -100000000
    rw [hisa]
    simp [npMean]
  have h75 : 75 < pipelineScore [txGamble] := by
    rw [pipelineScore]
    simp only [calculate_overall_risk_score]
    rw [hfs_iv, hfs_sv, hfs_cons, hbae, hbah, hbaw, havg, hfreq]
    norm_num [max_def, min_def]
  have he : (calculate_behavioral_analysis (toRows [txGamble])).behavioral_patterns.essential_spending_ratio_
      < 3/10 := by
    rw [hbae]; norm_num
  exact ⟨by decide, h75, he,
    (claim_c3_rule_cascade dNow [txGamble] (by decide) h75 he).2⟩

/-- In the factor list built by `_calculate_risk_assessment`, the
"Stable income" entry appears exactly when the income-consistency
condition holds. -/
lemma mem_eligibilityFactors_stable_income (ba : BehavioralAnalysis) :
    "Stable income" ∈ eligibilityFactors ba ↔ stableIncomeCond ba := by
  simp only [eligibilityFactors]
  by_cases h4 : stableIncomeCond ba
  · rw [if_pos h4, if_neg (by simp)]
    simp [h4]
  · rw [if_neg h4, List.append_nil]
    simp only [h4, iff_false]
    intro hmem
    by_cases hl : ((if 1/2 < ba.behavioral_patterns.essential_spending_ratio_ then
          ["High essential spending ratio"] else []) ++
        (if ba.behavioral_patterns.high_risk_spending_ratio_ < 15/100 then
          ["Low discretionary spending"] else []) ++
        (if ba.spending_stability = SpendingStability.high ∨
            ba.spending_stability = SpendingStability.medium then
          ["Stable spending pattern"] else []) : List String) = []
    · rw [if_pos hl] at hmem
      simp at hmem
    · rw [if_neg hl] at hmem
      simp only [List.mem_append] at hmem
      rcases hmem with (h | h) | h <;> (revert h; split <;> simp)

/-- If none of the four factor conditions triggers, the factor list is
exactly the fallback entry. -/
lemma eligibilityFactors_of_none (ba : BehavioralAnalysis)
    (h1 : ¬ (1/2 < ba.behavioral_patterns.essential_spending_ratio_))
    (h2 : ¬ (ba.behavioral_patterns.high_risk_spending_ratio_ < 15/100))
    (h3 : ¬ (ba.spending_stability = SpendingStability.high ∨
      ba.spending_stability = SpendingStability.medium))
    (h4 : ¬ stableIncomeCond ba) :
    eligibilityFactors ba = ["Standard risk profile"] := by
  simp only [eligibilityFactors]
  rw [if_neg h1, if_neg h2, if_neg h3, if_neg h4]
  rfl

/-- C7: the factor "Stable income" is in `loan_eligibility_factors` iff
at least 2 months of income data exist and
`stddev(monthly_incomes) / (mean(monthly_incomes) + 1e-6) < 0.3`; and if
none of the four factor conditions triggers, the list is exactly
`["Standard risk profile"]`. -/
theorem claim_c7_stable_income_factor (now : DateT) (ts : List Transaction)
    (hne : ts ≠ []) :
    (("Stable income" ∈
        (analyze_transactions now ts).risk_assessment_details.loan_eligibility_factors) ↔
      (1 < (monthlyIncomes (calculate_behavioral_analysis (toRows ts))).length ∧
        npStd (monthlyIncomes (calculate_behavioral_analysis (toRows ts))) /
          (npMean (monthlyIncomes (calculate_behavioral_analysis (toRows ts))) + eps)
          < 3/10)) ∧
    (¬ (1/2 <
        (calculate_behavioral_analysis (toRows ts)).behavioral_patterns.essential_spending_ratio_) →
      ¬ ((calculate_behavioral_analysis (toRows ts)).behavioral_patterns.high_risk_spending_ratio_
        < 15/100) →
      ¬ ((calculate_behavioral_analysis (toRows ts)).spending_stability = SpendingStability.high ∨
        (calculate_behavioral_analysis (toRows ts)).spending_stability = SpendingStability.medium) →
      ¬ (1 < (monthlyIncomes (calculate_behavioral_analysis (toRows ts))).length ∧
        npStd (monthlyIncomes (calculate_behavioral_analysis (toRows ts))) /
          (npMean (monthlyIncomes (calculate_behavioral_analysis (toRows ts))) + eps)
          < 3/10) →
      (analyze_transactions now ts).risk_assessment_details.loan_eligibility_factors =
        ["Standard risk profile"]) := by
  have hfl : (analyze_transactions now ts).risk_assessment_details.loan_eligibility_factors
      = eligibilityFactors (calculate_behavioral_analysis (toRows ts)) := by
    rw [analyze_eq now ts hne]
    rfl
  rw [hfl]
  constructor
  · exact mem_eligibilityFactors_stable_income _
  · intro h1 h2 h3 h4
    exact eligibilityFactors_of_none _ h1 h2 h3 h4

/-- C7 witness: the claim instantiated on a one-transaction list. -/
theorem claim_c7_witness :
    ([txGroc] : List Transaction) ≠ [] ∧
    (("Stable income" ∈
        (analyze_transactions dNow [txGroc]).risk_assessment_details.loan_eligibility_factors) ↔
      (1 < (monthlyIncomes (calculate_behavioral_analysis (toRows [txGroc]))).length ∧
        npStd (monthlyIncomes (calculate_behavioral_analysis (toRows [txGroc]))) /
          (npMean (monthlyIncomes (calculate_behavioral_analysis (toRows [txGroc]))) + eps)
          < 3/10)) :=
  ⟨by decide, (claim_c7_stable_income_factor dNow [txGroc] (by decide)).1⟩

lemma mem_ite_singleton {α : Type} {c : Prop} [Decidable c] {x d : α}
    (h : d ∈ (if c then [x] else [])) : c ∧ d = x := by
  split at h
  · exact ⟨by assumption, by simpa using h⟩
  · simp at h

lemma if_nil_fallback_ne_nil {α : Type} [DecidableEq α] (l fb : List α) (hfb : fb ≠ []) :
    (if l = [] then fb else l) ≠ [] := by
  split
  · exact hfb
  · assumption

/-- The factor list always ends non-empty: either some condition fired or
the fallback entry is inserted. -/
lemma eligibilityFactors_ne_nil (ba : BehavioralAnalysis) :
    eligibilityFactors ba ≠ [] := by
  simp only [eligibilityFactors]
  exact if_nil_fallback_ne_nil _ _ (by simp)

lemma months_ne_nil {ts : List Transaction} (hne : ts ≠ []) :
    months (toRows ts) ≠ [] := by
  rw [months, Ne, List.dedup_eq_nil, List.map_eq_nil_iff, toRows,
    List.map_eq_nil_iff]
  exact hne

/-- C8: `analyze_transactions` is total on well-typed input (the data
model's non-negative amounts): every denominator the pipeline divides by
is strictly positive (the epsilon guards are effective), every list it
takes numpy statistics of is non-empty, and the returned result is
complete (in particular the factor list is never empty); the empty list
takes the sentinel path where no division happens at all. -/
theorem claim_c8_total (now : DateT) (ts : List Transaction)
    (hpos : ∀ t ∈ ts, 0 ≤ t.amount) :
    (∀ d ∈ analyzeDenominators ts, 0 < d) ∧
    (∀ l ∈ analyzeMeanArgs ts, l ≠ []) ∧
    (analyze_transactions now ts).risk_assessment_details.loan_eligibility_factors ≠ [] := by
  by_cases hne : ts = []
  · subst hne
    refine ⟨?_, ?_, ?_⟩
    · intro d hd
      rw [analyzeDenominators, if_pos rfl] at hd
      simp at hd
    · intro l hl
      rw [analyzeMeanArgs, if_pos rfl] at hl
      simp at hl
    · show (generate_empty_result now).risk_assessment_details.loan_eligibility_factors ≠ []
      simp [generate_empty_result]
  · have hrow := row_amount_nonneg hpos
    have hmonths := months_ne_nil hne
    refine ⟨?_, ?_, ?_⟩
    · intro d hd
      rw [analyzeDenominators, if_neg hne] at hd
      rcases List.mem_append.mp hd with h | h
      · rcases List.mem_append.mp h with h | h
        · rcases List.mem_append.mp h with h | h
          · rcases List.mem_append.mp h with h | h
            · rcases List.mem_append.mp h with h | h
              · rcases List.mem_cons.mp h with rfl | h
                · exact add_pos_of_nonneg_of_pos
                    (npMean_nonneg (incomeValues_nonneg hrow)) eps_pos
                · rcases List.mem_cons.mp h with rfl | h
                  · exact add_pos_of_nonneg_of_pos
                      (npMean_nonneg (spendingValues_nonneg hrow)) eps_pos
                  · simp at h
              · rcases List.mem_map.mp h with ⟨m, _, rfl⟩
                exact add_pos_of_nonneg_of_pos (creditSumIn_nonneg hrow m) eps_pos
            · obtain ⟨hc, rfl⟩ := mem_ite_singleton h
              exact hc
          · obtain ⟨hc, rfl⟩ := mem_ite_singleton h
            exact hc
        · obtain ⟨_, rfl⟩ := mem_ite_singleton h
          exact add_pos_of_nonneg_of_pos
            (npMean_nonneg (monthlyDebitTotals_nonneg hrow)) eps_pos
      · obtain ⟨_, rfl⟩ := mem_ite_singleton h
        exact add_pos_of_nonneg_of_pos
          (npMean_nonneg (incomeValues_nonneg hrow)) eps_pos
    · intro l hl
      rw [analyzeMeanArgs, if_neg hne] at hl
      rcases List.mem_append.mp hl with h | h
      · rcases List.mem_append.mp h with h | h
        · rcases List.mem_cons.mp h with rfl | h
          · rw [incomeValues, Ne, List.map_eq_nil_iff]
            exact hmonths
          · rcases List.mem_cons.mp h with rfl | h
            · rw [spendingValues, Ne, List.map_eq_nil_iff]
              exact hmonths
            · rcases List.mem_cons.mp h with rfl | h
              · rw [savingsRates, Ne, List.map_eq_nil_iff, incomeSpendingAnalysis,
                  List.map_eq_nil_iff]
                exact hmonths
              · simp at h
        · obtain ⟨hc, rfl⟩ := mem_ite_singleton h
          rw [monthlyDebitTotals, Ne, List.map_eq_nil_iff]
          intro hdm
          rw [hdm] at hc
          simp at hc
      · obtain ⟨_, rfl⟩ := mem_ite_singleton h
        rw [incomeValues, Ne, List.map_eq_nil_iff]
        exact hmonths
    · have hfl : (analyze_transactions now ts).risk_assessment_details.loan_eligibility_factors
          = eligibilityFactors (calculate_behavioral_analysis (toRows ts)) := by
        rw [analyze_eq now ts hne]
        rfl
      rw [hfl]
      exact eligibilityFactors_ne_nil _

/-- C8 witness: the claim instantiated on a one-transaction list. -/
theorem claim_c8_witness :
    (∀ t ∈ ([txGroc] : List Transaction), 0 ≤ t.amount) ∧
    ((∀ d ∈ analyzeDenominators [txGroc], 0 < d) ∧
      (analyze_transactions dNow [txGroc]).risk_assessment_details.loan_eligibility_factors ≠ []) :=
  ⟨by decide,
    (claim_c8_total dNow [txGroc] (by decide)).1,
    (claim_c8_total dNow [txGroc] (by decide)).2.2⟩

end TransactionRisk
